import Mathlib

/-!
Verification development for the PASC PRO Streamlit front end
(src/streamlit_app.py). The token scheme, the TOTP verifier, the audit log
and the session flow of the single source file are embedded shallowly; the
claims of the specification are then settled against this embedding.

Modelling conventions:
- machine time is a Nat clock (seconds since the epoch);
- the ambient cryptographic primitives fixed at process start (the
  itsdangerous signature under PASC_SECRET_KEY, the HMAC-SHA256 hexdigest
  under PASC_HMAC_KEY, and the pyotp HOTP code derivation) are carried as
  opaque-to-the-theorems function fields of an Env record, so every theorem
  quantifies over them;
- byte strings whose only relevant property is their JSON decode are
  represented by the decode result (PayloadBytes);
- a Python exception escaping a function is an Except.error result.
-/

namespace Pasc

/-- Decoded payload of an email token: the dict with keys email and purpose
built in generate_email_token. -/
structure Payload where
  email : String
  purpose : String
deriving DecidableEq, Repr

/-- Serialized payload bytes of a token, represented at the granularity of
their JSON decode: wellFormed p stands for the canonical JSON encoding of p,
and malformed s stands for any byte string on which JSON decoding fails
(raising BadPayload inside itsdangerous). -/
inductive PayloadBytes where
  | wellFormed (p : Payload)
  | malformed (junk : String)
deriving DecidableEq, Repr

/-- Models the JSON encoding of the payload dict inside URL_SIGNER.dumps. -/
def dumpsPayload (p : Payload) : PayloadBytes := .wellFormed p

/-- Models the JSON decoding of payload bytes inside URL_SIGNER.loads; none
models a decoding failure. -/
def loadsPayload : PayloadBytes → Option Payload
  | .wellFormed p => some p
  | .malformed _ => none

/-- Wire form of an itsdangerous URLSafeTimedSerializer token: encoded payload
segment, timestamp segment and signature segment. -/
structure Token where
  payload : PayloadBytes
  ts : Nat
  sig : String
deriving DecidableEq, Repr

/-- Submitted or stored credential string: tok t is the wire string of token t
(the wire encoding is injective, so distinct tokens are distinct strings and no
token wire string coincides with a short TOTP digit code), raw s is any other
string; the initial empty pending_token is raw with the empty string. -/
inductive Cred where
  | tok (t : Token)
  | raw (s : String)
deriving DecidableEq, Repr

/-- Ambient functions fixed at process start: tokenSig models the
URLSafeTimedSerializer signature under PASC_SECRET_KEY over the payload and
timestamp segments, hmacSig models the HMAC-SHA256 hexdigest under
PASC_HMAC_KEY used by sign_record, and hotp models the pyotp code derivation
from a secret and a time-step counter. -/
structure Env where
  tokenSig : PayloadBytes → Nat → String
  hmacSig : String → String
  hotp : String → Int → String

/-- Models sign_record: hmac.new(HMAC_KEY, record, sha256).hexdigest on the
serialized record string. -/
def sign_record (env : Env) (record : String) : String := env.hmacSig record

/-- Audit record dict built in audit: timestamp (modelled by the Nat clock),
event kind and details mapping. -/
structure AuditRecord where
  timestamp : Nat
  event : String
  details : List (String × String)
deriving DecidableEq, Repr

/-- Models the JSON rendering of the details mapping, as a flat injective
rendering. -/
def serializeDetails : List (String × String) → String
  | [] => ""
  | (k, v) :: rest => "(" ++ k ++ "=" ++ v ++ ")" ++ serializeDetails rest

/-- Models line = json.dumps(record, ensure_ascii=False) in audit: the exact
serialized bytes of the record over which the tag is computed. -/
def serializeRecord (r : AuditRecord) : String :=
  "timestamp=" ++ toString r.timestamp ++ ";event=" ++ r.event ++
    ";details=" ++ serializeDetails r.details

/-- Line appended to the audit JSONL file: the record together with its hmac
field. -/
structure AuditEntry where
  record : AuditRecord
  hmac : String
deriving DecidableEq, Repr

/-- Models audit: builds the record from the clock, the event and the details,
serializes it, signs the serialization with sign_record and returns the line
appended to AUDIT_FILE. -/
def auditEntry (env : Env) (now : Nat) (event : String)
    (details : List (String × String)) : AuditEntry :=
  let record : AuditRecord := ⟨now, event, details⟩
  ⟨record, sign_record env (serializeRecord record)⟩

/-- Default max_age parameter of verify_email_token. -/
def default_max_age : Nat := 600

/-- Decidable equality of Except results, used to evaluate the model on
concrete inputs. -/
instance {ε α : Type} [DecidableEq ε] [DecidableEq α] : DecidableEq (Except ε α) :=
  fun x y =>
    match x, y with
    | .ok a, .ok b =>
      if h : a = b then .isTrue (by rw [h]) else
        .isFalse (fun hh => h (Except.ok.inj hh))
    | .ok _, .error _ => .isFalse (fun hh => Except.noConfusion hh)
    | .error _, .ok _ => .isFalse (fun hh => Except.noConfusion hh)
    | .error e, .error f =>
      if h : e = f then .isTrue (by rw [h]) else
        .isFalse (fun hh => h (Except.error.inj hh))

/-- Models verify_email_token: URL_SIGNER.loads checks the signature over the
payload and timestamp segments, then the age, then decodes the payload.
BadSignature (tag mismatch, or an input that is not a token wire string at
all) and SignatureExpired are caught and give none; a BadPayload raised when
the signature verifies but the payload bytes do not decode is not caught and
escapes as Except.error. -/
def verify_email_token (env : Env) (c : Cred) (max_age : Nat) (now : Nat) :
    Except Unit (Option Payload) :=
  match c with
  | .raw _ => .ok none
  | .tok t =>
    if t.sig = env.tokenSig t.payload t.ts then
      if now - t.ts > max_age then .ok none
      else
        match loadsPayload t.payload with
        | some p => .ok (some p)
        | none => .error ()
    else .ok none

/-- Models generate_email_token: URL_SIGNER.dumps of the email and the fixed
purpose login, stamped and signed at the current time. -/
def generate_email_token (env : Env) (email : String) (now : Nat) : Token :=
  ⟨dumpsPayload ⟨email, "login"⟩, now,
    env.tokenSig (dumpsPayload ⟨email, "login"⟩) now⟩

/-- Models the pyotp timecode: the index of the 30 second time step containing
the clock value. -/
def timecode (now : Nat) : Int := (now : Int) / 30

/-- Models pyotp.TOTP(secret).verify(code, valid_window=w): the submitted
string is compared against the codes of the time steps from timecode - w to
timecode + w. -/
def totp_verify (env : Env) (secret : String) (code : Cred) (now : Nat)
    (window : Nat) : Bool :=
  (List.range (2 * window + 1)).any fun i =>
    code == Cred.raw (env.hotp secret (timecode now - (window : Int) + (i : Int)))

/-- Streamlit session_state fields used by the app. -/
structure SessionState where
  email : String
  pending_token : Cred
  authenticated : Bool
deriving DecidableEq, Repr

/-- Initial session_state populated on first interaction. -/
def initSession : SessionState := ⟨"", .raw "", false⟩

/-- Row of the users table. -/
structure UserRecord where
  email : String
  totp_secret : String
  is_active : Bool
  created_at : Nat
deriving DecidableEq, Repr

/-- Models Python str.strip(): whitespace removed from both ends, written over
the character list so that it evaluates by kernel reduction. -/
def pyStrip (s : String) : String :=
  ⟨((s.data.dropWhile Char.isWhitespace).reverse.dropWhile Char.isWhitespace).reverse⟩

/-- Models Python str.lower(): characterwise lowering, written over the
character list so that it evaluates by kernel reduction. -/
def pyLower (s : String) : String := ⟨s.data.map Char.toLower⟩

/-- Models email.strip().lower() canonicalization in the request branch. -/
def canonEmail (e : String) : String := pyLower (pyStrip e)

/-- Models token_in.strip() on the submitted credential: whitespace stripping
on a raw string; a token wire string is represented already stripped. -/
def credStrip : Cred → Cred
  | .raw s => .raw (pyStrip s)
  | .tok t => .tok t

/-- Rendering of payload bytes as the payload segment of a wire string
(injective by construction). -/
def payloadBytesStr : PayloadBytes → String
  | .wellFormed p => "w:" ++ p.email ++ "," ++ p.purpose
  | .malformed s => "m:" ++ s

/-- Rendering of a credential into the submitted string written to the audit
details. -/
def credStr : Cred → String
  | .raw s => s
  | .tok t => payloadBytesStr t.payload ++ "." ++ toString t.ts ++ "." ++ t.sig

/-- Outcome surfaced by one run of the verify branch: which message is shown,
or which exception escapes (crashPayload for an uncaught BadPayload,
crashAudit for a failed audit append). -/
inductive VerifyOutcome where
  | noPending
  | success
  | successTotp
  | failToken
  | fail
  | userNotFound
  | crashPayload
  | crashAudit
deriving DecidableEq, Repr

/-- Result of one run of the verify branch: final session state, audit file
content, surfaced outcome, and a flag recording whether control reached the
TOTP else-branch of the code. -/
structure VerifyOut where
  state : SessionState
  log : List AuditEntry
  outcome : VerifyOutcome
  totpBranch : Bool
deriving DecidableEq, Repr

/-- Models the verify branch of the app: strip the input, refuse when no email
is on file, try the signature path when the input textually equals the stored
pending token, otherwise take the TOTP branch against the stored user secret.
The argument auditOk tells whether the append to the audit file succeeds; a
failed append raises after any state mutation already performed, so the
mutation survives. -/
def verifyStep (env : Env) (st : SessionState) (db : List UserRecord)
    (log : List AuditEntry) (input : Cred) (now : Nat) (auditOk : Bool) :
    VerifyOut :=
  let token_in := credStrip input
  if st.email = "" then ⟨st, log, .noPending, false⟩
  else if token_in = st.pending_token then
    match verify_email_token env token_in default_max_age now with
    | .error _ => ⟨st, log, .crashPayload, false⟩
    | .ok (some p) =>
      if p.email = st.email then
        let st1 := { st with authenticated := true }
        if auditOk then
          ⟨st1, log ++ [auditEntry env now "login_success" [("email", st.email)]],
            .success, false⟩
        else ⟨st1, log, .crashAudit, false⟩
      else
        if auditOk then
          ⟨st, log ++ [auditEntry env now "login_fail_token"
              [("submitted", credStr token_in), ("email", st.email)]],
            .failToken, false⟩
        else ⟨st, log, .crashAudit, false⟩
    | .ok none =>
      if auditOk then
        ⟨st, log ++ [auditEntry env now "login_fail_token"
            [("submitted", credStr token_in), ("email", st.email)]],
          .failToken, false⟩
      else ⟨st, log, .crashAudit, false⟩
  else
    match db.find? (fun u => u.email == st.email) with
    | some user =>
      if totp_verify env user.totp_secret token_in now 1 then
        let st1 := { st with authenticated := true }
        if auditOk then
          ⟨st1, log ++ [auditEntry env now "login_success_totp"
              [("email", st.email)]], .successTotp, true⟩
        else ⟨st1, log, .crashAudit, true⟩
      else
        if auditOk then
          ⟨st, log ++ [auditEntry env now "login_fail"
              [("submitted", credStr token_in), ("email", st.email)]],
            .fail, true⟩
        else ⟨st, log, .crashAudit, true⟩
    | none => ⟨st, log, .userNotFound, true⟩

/-- Result of one run of the request branch: final session state, users table,
audit file content, and whether the success message was shown (false when the
send or the audit append raised inside the try block and the error message was
shown instead). -/
structure RequestOut where
  state : SessionState
  db : List UserRecord
  log : List AuditEntry
  ok : Bool
deriving DecidableEq, Repr

/-- Models the request branch of the app: canonicalize the email, look up or
create the user row with a fresh TOTP secret, mint the email token, then try
to send it; only on send success is the request audited and are the session
email and pending token set. Any exception inside the try block, a send
failure (sendOk false) as well as a failed audit append (auditOk false), is
caught, leaving the session unchanged; the user row creation is already
committed and is not rolled back. -/
def requestStep (env : Env) (st : SessionState) (db : List UserRecord)
    (log : List AuditEntry) (emailInput : String) (freshSecret : String)
    (now : Nat) (sendOk : Bool) (auditOk : Bool) : RequestOut :=
  let email := canonEmail emailInput
  let db1 :=
    match db.find? (fun u => u.email == email) with
    | some _ => db
    | none => db ++ [⟨email, freshSecret, true, now⟩]
  let token := generate_email_token env email now
  if sendOk then
    if auditOk then
      ⟨{ st with email := email, pending_token := .tok token },
        db1, log ++ [auditEntry env now "request_access" [("email", email)]],
        true⟩
    else ⟨st, db1, log, false⟩
  else ⟨st, db1, log, false⟩

/-- Models the logout button branch: audit the logout, then clear the three
session fields; a failed audit append raises before any field is cleared. -/
def logoutStep (env : Env) (st : SessionState) (log : List AuditEntry)
    (now : Nat) (auditOk : Bool) : SessionState × List AuditEntry :=
  if auditOk then
    (⟨"", .raw "", false⟩,
      log ++ [auditEntry env now "logout" [("email", st.email)]])
  else (st, log)

/-- Global state of one session: the session_state, the users table and the
audit file. -/
structure GState where
  st : SessionState
  db : List UserRecord
  log : List AuditEntry
deriving DecidableEq, Repr

/-- Initial global state: fresh session_state, empty users table, empty audit
file. -/
def initG : GState := ⟨initSession, [], []⟩

/-- One externally triggered interaction; the oracle arguments carry the
nondeterminism of the environment: the clock, the fresh TOTP secret, and
whether the mail send and the audit append succeed. -/
inductive Op where
  | request (emailInput freshSecret : String) (now : Nat) (sendOk auditOk : Bool)
  | verify (input : Cred) (now : Nat) (auditOk : Bool)
  | logout (now : Nat) (auditOk : Bool)

/-- Models one Streamlit rerun handling one interaction: an authenticated
session only offers the logout button (st.stop is reached before the forms),
an unauthenticated session offers the request and verify forms and no logout
button. -/
def step (env : Env) (g : GState) (op : Op) : GState :=
  match op with
  | .logout now auditOk =>
    if g.st.authenticated then
      let r := logoutStep env g.st g.log now auditOk
      ⟨r.1, g.db, r.2⟩
    else g
  | .request emailInput freshSecret now sendOk auditOk =>
    if g.st.authenticated then g
    else
      let r := requestStep env g.st g.db g.log emailInput freshSecret now sendOk auditOk
      ⟨r.state, r.db, r.log⟩
  | .verify input now auditOk =>
    if g.st.authenticated then g
    else
      let r := verifyStep env g.st g.db g.log input now auditOk
      ⟨r.state, g.db, r.log⟩

/-- Run of one session from the initial state through a list of interactions. -/
def run (env : Env) (ops : List Op) : GState := ops.foldl (step env) initG

/-- Concrete environment instance used to evaluate the model on concrete
inputs: a constant token signature, the identity as the record MAC (trivially
injective) and the decimal counter rendering as the TOTP code. -/
def cEnv : Env := ⟨fun _ _ => "sig", fun s => s, fun _ c => toString c⟩

/-- C6: verifying a freshly issued token round-trips; immediately after
issuance, verify_email_token under the default max age returns the payload
with exactly the issued email and the purpose login. -/
theorem C6_round_trip (env : Env) (email : String) (now : Nat) :
    verify_email_token env (.tok (generate_email_token env email now))
        default_max_age now = .ok (some ⟨email, "login"⟩) := by
  simp [verify_email_token, generate_email_token, loadsPayload, dumpsPayload,
    default_max_age]

/-- C3 (amended): verify_email_token is total and returns none for every input
that is not a token wire string, for every token whose tag does not verify,
and for every token older than max age regardless of its tag; the one
exception escaping it is the BadPayload raised exactly when the tag verifies,
the token is fresh, and the payload bytes do not decode. -/
theorem C3_amended_fails_closed (env : Env) (t : Token) (maxAge now : Nat) :
    (∀ s : String, verify_email_token env (.raw s) maxAge now = .ok none)
    ∧ (t.sig ≠ env.tokenSig t.payload t.ts →
        verify_email_token env (.tok t) maxAge now = .ok none)
    ∧ (now - t.ts > maxAge → verify_email_token env (.tok t) maxAge now = .ok none)
    ∧ (verify_email_token env (.tok t) maxAge now = .error () ↔
        t.sig = env.tokenSig t.payload t.ts ∧ now - t.ts ≤ maxAge ∧
          loadsPayload t.payload = none) := by
  refine ⟨fun s => rfl, fun h => by simp [verify_email_token, h], fun h => ?_, ?_⟩
  · by_cases hs : t.sig = env.tokenSig t.payload t.ts <;>
      simp [verify_email_token, hs, h]
  · constructor
    · intro hv
      by_cases hs : t.sig = env.tokenSig t.payload t.ts
      · by_cases ha : now - t.ts > maxAge
        · simp [verify_email_token, hs, ha] at hv
        · cases hp : loadsPayload t.payload with
          | none => exact ⟨hs, by omega, rfl⟩
          | some p => simp [verify_email_token, hs, ha, hp] at hv
      · simp [verify_email_token, hs] at hv
    · rintro ⟨hs, ha, hp⟩
      have ha2 : ¬ (now - t.ts > maxAge) := by omega
      simp [verify_email_token, hs, ha2, hp]

/-- C3 witness: a token with a wrong tag is rejected with none, and an expired
token with a correct tag is rejected with none. -/
theorem C3_amended_witness :
    verify_email_token cEnv (.tok ⟨.wellFormed ⟨"a", "login"⟩, 0, "zz"⟩) 600 0 = .ok none
    ∧ verify_email_token cEnv (.tok ⟨.wellFormed ⟨"a", "login"⟩, 0, "sig"⟩) 600 1000 = .ok none :=
  ⟨(C3_amended_fails_closed cEnv ⟨.wellFormed ⟨"a", "login"⟩, 0, "zz"⟩ 600 0).2.1
      (by decide),
   (C3_amended_fails_closed cEnv ⟨.wellFormed ⟨"a", "login"⟩, 0, "sig"⟩ 600 1000).2.2.1
      (by decide)⟩

/-- C3 counterexample: on the concrete input whose tag verifies, which is
fresh, and whose payload bytes do not decode, verify_email_token does not
return a typed result but lets the BadPayload exception escape, against the
claim that every failure path returns a typed Invalid result. -/
theorem C3_counterexample :
    verify_email_token cEnv (.tok ⟨.malformed "x", 0, "sig"⟩) 600 0 = .error () := by
  decide

/-- Helper: with valid window one, totp_verify accepts exactly the codes of
the previous, the current and the next time step. -/
theorem totp_verify_window_one (env : Env) (secret : String) (c : Cred) (now : Nat) :
    totp_verify env secret c now 1 = true ↔
      (c = .raw (env.hotp secret (timecode now - 1)) ∨
       c = .raw (env.hotp secret (timecode now)) ∨
       c = .raw (env.hotp secret (timecode now + 1))) := by
  have h3 : List.range (2 * 1 + 1) = [0, 1, 2] := rfl
  have e0 : timecode now - ((1 : Nat) : Int) + ((0 : Nat) : Int) = timecode now - 1 := by
    push_cast; ring
  have e1 : timecode now - ((1 : Nat) : Int) + ((1 : Nat) : Int) = timecode now := by
    push_cast; ring
  have e2 : timecode now - ((1 : Nat) : Int) + ((2 : Nat) : Int) = timecode now + 1 := by
    push_cast; ring
  unfold totp_verify
  rw [h3]
  simp only [List.any_cons, List.any_nil, Bool.or_eq_true, Bool.or_false,
    beq_iff_eq, e0, e1, e2]

/-- C7: the TOTP verifier with skew window one accepts every code equal to the
expected code of the current, previous or next 30 second time step, and
rejects a code that is valid only three steps ahead (differing from all three
window codes). -/
theorem C7_totp_window (env : Env) (secret : String) (now : Nat) (code : String) :
    (∀ i : Int, -1 ≤ i → i ≤ 1 → code = env.hotp secret (timecode now + i) →
      totp_verify env secret (.raw code) now 1 = true)
    ∧ ((∀ i : Int, -1 ≤ i → i ≤ 1 → code ≠ env.hotp secret (timecode now + i)) →
        code = env.hotp secret (timecode now + 3) →
        totp_verify env secret (.raw code) now 1 = false) := by
  constructor
  · intro i h1 h2 hc
    rw [totp_verify_window_one]
    interval_cases i
    · exact Or.inl
        (by rw [hc, show timecode now + (-1) = timecode now - 1 by ring])
    · exact Or.inr (Or.inl
        (by rw [hc, show timecode now + (0 : Int) = timecode now by ring]))
    · exact Or.inr (Or.inr (by rw [hc]))
  · intro hno h3
    rw [Bool.eq_false_iff]
    intro htrue
    rw [totp_verify_window_one] at htrue
    rcases htrue with h | h | h
    · exact hno (-1) (by norm_num) (by norm_num)
        (by rw [show timecode now + (-1) = timecode now - 1 by ring]
            exact Cred.raw.inj h)
    · exact hno 0 (by norm_num) (by norm_num)
        (by rw [show timecode now + (0 : Int) = timecode now by ring]
            exact Cred.raw.inj h)
    · exact hno 1 (by norm_num) (by norm_num) (Cred.raw.inj h)

/-- C7 witness: at clock 90 (time step 3) the code of the current step is
accepted and a code valid only at step 6, three steps ahead, is rejected. -/
theorem C7_totp_witness :
    totp_verify cEnv "s" (.raw "3") 90 1 = true ∧
    totp_verify cEnv "s" (.raw "6") 90 1 = false :=
  ⟨(C7_totp_window cEnv "s" 90 "3").1 0 (by norm_num) (by norm_num) (by decide),
   (C7_totp_window cEnv "s" 90 "6").2
     (by intro i h1 h2; interval_cases i <;> decide) (by decide)⟩

/-- C8: the tag stored with every appended audit record is exactly sign_record
of the serialized record bytes, hence recomputable by a verifier holding the
key, and, whenever the MAC is injective, any record serializing to different
bytes recomputes to a tag different from the stored one. -/
theorem C8_audit_tag (env : Env) (now : Nat) (event : String)
    (details : List (String × String)) :
    (auditEntry env now event details).hmac =
      sign_record env (serializeRecord ⟨now, event, details⟩)
    ∧ (Function.Injective env.hmacSig →
        ∀ r2 : AuditRecord,
          serializeRecord r2 ≠ serializeRecord (auditEntry env now event details).record →
          env.hmacSig (serializeRecord r2) ≠ (auditEntry env now event details).hmac) := by
  constructor
  · rfl
  · intro hinj r2 hne heq
    exact hne (hinj heq)

/-- C8 witness: with the identity MAC of the concrete environment, the record
with timestamp 1 recomputes to a tag different from the tag stored for the
record with timestamp 0. -/
theorem C8_audit_tag_witness :
    cEnv.hmacSig (serializeRecord ⟨1, "e", []⟩) ≠ (auditEntry cEnv 0 "e" []).hmac :=
  (C8_audit_tag cEnv 0 "e" []).2 (fun _ _ h => h) ⟨1, "e", []⟩ (by decide)

/-- C5: on delivery failure the request transition does not complete: the
session is unchanged, the failure is surfaced, no audit line is appended, yet
a user row for the canonical email exists afterwards, and any retry for the
same email leaves the users table unchanged, reusing that record. -/
theorem C5_delivery_failure (env : Env) (st : SessionState) (db : List UserRecord)
    (log : List AuditEntry) (e s : String) (now : Nat) (auditOk : Bool) :
    (requestStep env st db log e s now false auditOk).state = st
    ∧ (requestStep env st db log e s now false auditOk).ok = false
    ∧ (requestStep env st db log e s now false auditOk).log = log
    ∧ (∃ u ∈ (requestStep env st db log e s now false auditOk).db,
        u.email = canonEmail e)
    ∧ (∀ st3 log3 s2 now2 sendOk2 auditOk2,
        (requestStep env st3 (requestStep env st db log e s now false auditOk).db
            log3 e s2 now2 sendOk2 auditOk2).db =
          (requestStep env st db log e s now false auditOk).db) := by
  refine ⟨by simp [requestStep], by simp [requestStep], by simp [requestStep], ?_, ?_⟩
  · cases h : db.find? (fun u => u.email == canonEmail e) with
    | some u =>
      refine ⟨u, ?_, ?_⟩
      · simpa [requestStep, h] using List.mem_of_find?_eq_some h
      · have hp := List.find?_some h
        exact beq_iff_eq.mp hp
    | none =>
      refine ⟨⟨canonEmail e, s, true, now⟩, ?_, rfl⟩
      simp [requestStep, h]
  · intro st3 log3 s2 now2 sendOk2 auditOk2
    have hfind : ∃ v, ((requestStep env st db log e s now false auditOk).db).find?
        (fun u => u.email == canonEmail e) = some v := by
      cases h : db.find? (fun u => u.email == canonEmail e) with
      | some u => exact ⟨u, by simp [requestStep, h]⟩
      | none =>
        refine ⟨⟨canonEmail e, s, true, now⟩, ?_⟩
        simp [requestStep, h, List.find?_append]
    obtain ⟨v, hv⟩ := hfind
    generalize hdb : (requestStep env st db log e s now false auditOk).db = D at hv ⊢
    cases sendOk2 <;> cases auditOk2 <;> simp [requestStep, hv]

/-- C9: on the signature path the purpose field of the payload is never
checked: for every purpose string, a session whose pending token is an
unexpired token signed over a payload carrying the session email and that
purpose accepts the echoed token and transitions to authenticated with a
login success audit event. -/
theorem C9_purpose_ignored (env : Env) (purpose email : String) (ts now : Nat)
    (db : List UserRecord) (log : List AuditEntry)
    (h1 : email ≠ "") (h2 : now - ts ≤ 600) :
    (verifyStep env
        ⟨email, .tok ⟨.wellFormed ⟨email, purpose⟩, ts,
            env.tokenSig (.wellFormed ⟨email, purpose⟩) ts⟩, false⟩ db log
        (.tok ⟨.wellFormed ⟨email, purpose⟩, ts,
            env.tokenSig (.wellFormed ⟨email, purpose⟩) ts⟩) now true).state.authenticated
      = true
    ∧ (verifyStep env
        ⟨email, .tok ⟨.wellFormed ⟨email, purpose⟩, ts,
            env.tokenSig (.wellFormed ⟨email, purpose⟩) ts⟩, false⟩ db log
        (.tok ⟨.wellFormed ⟨email, purpose⟩, ts,
            env.tokenSig (.wellFormed ⟨email, purpose⟩) ts⟩) now true).outcome
      = .success := by
  constructor <;>
    simp [verifyStep, credStrip, h1, verify_email_token, loadsPayload,
      default_max_age, show ¬ (now - ts > 600) by omega]

/-- C9 witness: a token whose payload purpose is evil rather than login is
accepted on the signature path. -/
theorem C9_purpose_ignored_witness :
    (verifyStep cEnv
        ⟨"a@b", .tok ⟨.wellFormed ⟨"a@b", "evil"⟩, 0,
            cEnv.tokenSig (.wellFormed ⟨"a@b", "evil"⟩) 0⟩, false⟩ [] []
        (.tok ⟨.wellFormed ⟨"a@b", "evil"⟩, 0,
            cEnv.tokenSig (.wellFormed ⟨"a@b", "evil"⟩) 0⟩) 0 true).state.authenticated
      = true
    ∧ (verifyStep cEnv
        ⟨"a@b", .tok ⟨.wellFormed ⟨"a@b", "evil"⟩, 0,
            cEnv.tokenSig (.wellFormed ⟨"a@b", "evil"⟩) 0⟩, false⟩ [] []
        (.tok ⟨.wellFormed ⟨"a@b", "evil"⟩, 0,
            cEnv.tokenSig (.wellFormed ⟨"a@b", "evil"⟩) 0⟩) 0 true).outcome
      = .success :=
  C9_purpose_ignored cEnv "evil" "a@b" 0 0 [] [] (by decide) (by decide)

/-- C4 (amended): when the audit append fails on either success path, the
operation is not reported as successful (the exception escapes as the
crashAudit outcome and no audit line is written), but the session does end up
authenticated: the flag is assigned before the append and is not rolled back.
The first conjunct is the signature path (echoed fresh token), the second the
TOTP path (textual mismatch, user row found, code inside the skew window). -/
theorem C4_amended_auth_despite_audit_failure (env : Env) (st : SessionState)
    (db : List UserRecord) (log : List AuditEntry) (email : String)
    (ts now : Nat) (input : Cred) (user : UserRecord) :
    (email ≠ "" → now - ts ≤ 600 →
      verifyStep env ⟨email, .tok (generate_email_token env email ts), false⟩ db log
          (.tok (generate_email_token env email ts)) now false =
        ⟨⟨email, .tok (generate_email_token env email ts), true⟩, log,
          .crashAudit, false⟩)
    ∧ (st.email ≠ "" → credStrip input ≠ st.pending_token →
        db.find? (fun u => u.email == st.email) = some user →
        totp_verify env user.totp_secret (credStrip input) now 1 = true →
        verifyStep env st db log input now false =
          ⟨{ st with authenticated := true }, log, .crashAudit, true⟩) := by
  constructor
  · intro h1 h2
    simp [verifyStep, credStrip, h1, verify_email_token, generate_email_token,
      loadsPayload, dumpsPayload, default_max_age, show ¬ (now - ts > 600) by omega]
  · intro h1 h2 hf h4
    unfold verifyStep
    simp only [if_neg h1, if_neg h2, hf, h4, if_true, Bool.false_eq_true,
      if_false]

/-- C4 witness: concrete instances of both conjuncts of the amended claim at
clock 0, one on the signature path and one on the TOTP path. -/
theorem C4_amended_witness :
    (verifyStep cEnv ⟨"c@d", .tok (generate_email_token cEnv "c@d" 0), false⟩ [] []
        (.tok (generate_email_token cEnv "c@d" 0)) 0 false =
      ⟨⟨"c@d", .tok (generate_email_token cEnv "c@d" 0), true⟩, [],
        .crashAudit, false⟩)
    ∧ (verifyStep cEnv ⟨"c@d", .raw "", false⟩ [⟨"c@d", "s", true, 0⟩] []
        (.raw "0") 0 false =
      ⟨⟨"c@d", .raw "", true⟩, [], .crashAudit, true⟩) :=
  ⟨(C4_amended_auth_despite_audit_failure cEnv ⟨"c@d", .raw "", false⟩ [] []
      "c@d" 0 0 (.raw "") ⟨"c@d", "s", true, 0⟩).1 (by decide) (by decide),
   (C4_amended_auth_despite_audit_failure cEnv ⟨"c@d", .raw "", false⟩
      [⟨"c@d", "s", true, 0⟩] [] "c@d" 0 0 (.raw "0") ⟨"c@d", "s", true, 0⟩).2
      (by decide) (by decide) (by decide) (by decide)⟩

/-- C4 counterexample: a verify call whose credential check passes but whose
audit append fails leaves the session authenticated, against the claim that
the session does not end up authenticated in that case. -/
theorem C4_counterexample :
    (verifyStep cEnv ⟨"a@b", .tok (generate_email_token cEnv "a@b" 0), false⟩ [] []
        (.tok (generate_email_token cEnv "a@b" 0)) 0 false).state.authenticated
      = true := by
  decide

/-- C2 (amended): the TOTP branch of verify runs exactly when an email is on
file and the stripped input does not textually equal the stored pending
token; in particular, on a textual match whose cryptographic verification
fails, the call is reported as a token failure without any TOTP attempt. -/
theorem C2_amended_totp_branch (env : Env) (st : SessionState)
    (db : List UserRecord) (log : List AuditEntry) (input : Cred) (now : Nat)
    (auditOk : Bool) :
    (verifyStep env st db log input now auditOk).totpBranch =
      (!(st.email == "") && !(credStrip input == st.pending_token)) := by
  unfold verifyStep
  by_cases h1 : st.email = ""
  · simp [h1]
  · by_cases h2 : credStrip input = st.pending_token
    · simp only [if_neg h1, if_pos h2]
      rcases hv : verify_email_token env st.pending_token default_max_age now with e | op
      · simp [hv, h1, h2]
      · rcases op with _ | p
        · cases auditOk <;> simp [hv, h1, h2]
        · by_cases h3 : p.email = st.email <;> cases auditOk <;> simp [hv, h1, h2, h3]
    · simp only [if_neg h1, if_neg h2]
      rcases hf : db.find? (fun u => u.email == st.email) with _ | user
      · simp [hf, h1, h2]
      · by_cases h4 : totp_verify env user.totp_secret (credStrip input) now 1 = true
        · cases auditOk <;> simp [hf, h1, h2, h4]
        · cases auditOk <;> simp [hf, h1, h2, h4]

/-- C2 counterexample: the submitted text equals the pending token verbatim,
its cryptographic verification fails (the token is expired), the user row
with its TOTP secret is present, yet the TOTP branch is not reached and the
call is reported as a token failure, against the claim that TOTP is attempted
independently of the textual match. -/
theorem C2_counterexample :
    (verifyStep cEnv ⟨"a@b", .tok (generate_email_token cEnv "a@b" 0), false⟩
        [⟨"a@b", "s", true, 0⟩] [] (.tok (generate_email_token cEnv "a@b" 0))
        1000 true).totpBranch = false
    ∧ (verifyStep cEnv ⟨"a@b", .tok (generate_email_token cEnv "a@b" 0), false⟩
        [⟨"a@b", "s", true, 0⟩] [] (.tok (generate_email_token cEnv "a@b" 0))
        1000 true).outcome = .failToken := by
  constructor <;> decide

/-- C1 (amended): with the audit sink available, a verify call with an email
on file appends exactly one audit line unless it ends in the defensive
user-not-found branch or in an uncaught payload decoding exception, which
append none; a request call appends exactly one audit line when the mail send
succeeds and none when it fails. -/
theorem C1_amended_audit_count (env : Env) (st : SessionState)
    (db : List UserRecord) (log : List AuditEntry) (input : Cred) (now : Nat)
    (e s : String) (sendOk : Bool) (h : st.email ≠ "") :
    ((verifyStep env st db log input now true).log.length =
      log.length +
        (match (verifyStep env st db log input now true).outcome with
         | .userNotFound => 0
         | .crashPayload => 0
         | _ => 1))
    ∧ (requestStep env st db log e s now sendOk true).log.length =
        log.length + (if sendOk then 1 else 0) := by
  constructor
  · unfold verifyStep
    by_cases h2 : credStrip input = st.pending_token
    · simp only [if_neg h, if_pos h2]
      rcases hv : verify_email_token env st.pending_token default_max_age now with e | op
      · simp [hv, h, h2]
      · rcases op with _ | p
        · simp [hv, h, h2]
        · by_cases h3 : p.email = st.email <;> simp [hv, h, h2, h3]
    · simp only [if_neg h, if_neg h2]
      rcases hf : db.find? (fun u => u.email == st.email) with _ | user
      · simp [hf, h]
      · by_cases h4 : totp_verify env user.totp_secret (credStrip input) now 1 = true <;>
          simp [hf, h, h4]
  · unfold requestStep
    rcases hf : db.find? (fun u => u.email == canonEmail e) with _ | u <;>
      cases sendOk <;> simp [hf]

/-- C1 witness: concrete instances of the amended audit count, one verify call
ending user-not-found appending no line, and one request call with failed
delivery appending no line. -/
theorem C1_amended_witness :
    ((verifyStep cEnv ⟨"a@b", .raw "", false⟩ [] [] (.raw "x") 0 true).log.length =
      ([] : List AuditEntry).length +
        (match (verifyStep cEnv ⟨"a@b", .raw "", false⟩ [] [] (.raw "x") 0
            true).outcome with
         | .userNotFound => 0
         | .crashPayload => 0
         | _ => 1))
    ∧ (requestStep cEnv ⟨"a@b", .raw "", false⟩ [] [] "a@b" "s" 0 false true).log.length =
        ([] : List AuditEntry).length + (if false then 1 else 0) :=
  C1_amended_audit_count cEnv ⟨"a@b", .raw "", false⟩ [] [] (.raw "x") 0 "a@b" "s"
    false (by decide)

/-- C1 counterexample: a verify call with a pending email that ends in the
defensive user-not-found branch appends no audit line, and a request call
whose delivery fails appends no audit line, against the claim that both
always append exactly one. -/
theorem C1_counterexample :
    (verifyStep cEnv ⟨"a@b", .raw "", false⟩ [] [] (.raw "x") 0 true).log = []
    ∧ (verifyStep cEnv ⟨"a@b", .raw "", false⟩ [] [] (.raw "x") 0 true).outcome
        = .userNotFound
    ∧ (requestStep cEnv ⟨"", .raw "", false⟩ [] [] "a@b" "sec" 0 false true).log = [] := by
  refine ⟨by decide, by decide, by decide⟩

/-- Helper: one run of the verify branch either leaves the session untouched
or only raises the authenticated flag, and it raises the flag only when an
email is on file. -/
theorem verifyStep_state_cases (env : Env) (st : SessionState)
    (db : List UserRecord) (log : List AuditEntry) (input : Cred) (now : Nat)
    (auditOk : Bool) :
    (verifyStep env st db log input now auditOk).state = st ∨
    ((verifyStep env st db log input now auditOk).state =
        { st with authenticated := true } ∧ st.email ≠ "") := by
  unfold verifyStep
  by_cases h1 : st.email = ""
  · simp [h1]
  · by_cases h2 : credStrip input = st.pending_token
    · simp only [if_neg h1, if_pos h2]
      rcases hv : verify_email_token env st.pending_token default_max_age now with e | op
      · simp [hv, h2]
      · rcases op with _ | p
        · cases auditOk <;> simp [hv, h2]
        · by_cases h3 : p.email = st.email <;> cases auditOk <;> simp [hv, h2, h3, h1]
    · simp only [if_neg h1, if_neg h2]
      rcases hf : db.find? (fun u => u.email == st.email) with _ | user
      · simp [hf]
      · by_cases h4 : totp_verify env user.totp_secret (credStrip input) now 1 = true <;>
          cases auditOk <;> simp [hf, h4, h1]

/-- Helper: the request branch never changes the authenticated flag. -/
theorem requestStep_auth (env : Env) (st : SessionState) (db : List UserRecord)
    (log : List AuditEntry) (e s : String) (now : Nat) (sendOk auditOk : Bool) :
    (requestStep env st db log e s now sendOk auditOk).state.authenticated =
      st.authenticated := by
  unfold requestStep
  rcases hf : db.find? (fun u => u.email == canonEmail e) with _ | u <;>
    cases sendOk <;> cases auditOk <;> simp [hf]

/-- Invariant: an authenticated session carries a nonempty email. -/
def InvAuth (g : GState) : Prop := g.st.authenticated = true → g.st.email ≠ ""

/-- Helper: every interaction preserves the invariant. -/
theorem step_preserves_InvAuth (env : Env) (g : GState) (op : Op)
    (h : InvAuth g) : InvAuth (step env g op) := by
  cases op with
  | logout now auditOk =>
    by_cases ha : g.st.authenticated = true
    · cases auditOk
      · simpa [step, logoutStep, ha] using h
      · simp [step, logoutStep, ha, InvAuth]
    · simpa [step, ha] using h
  | request emailInput freshSecret now sendOk auditOk =>
    by_cases ha : g.st.authenticated = true
    · simpa [step, ha] using h
    · intro hx
      exfalso
      have hpres := requestStep_auth env g.st g.db g.log emailInput freshSecret
        now sendOk auditOk
      simp [step, ha] at hx
      rw [hpres] at hx
      exact ha hx
  | verify input now auditOk =>
    by_cases ha : g.st.authenticated = true
    · simpa [step, ha] using h
    · intro hx
      simp [step, ha] at hx ⊢
      rcases verifyStep_state_cases env g.st g.db g.log input now auditOk with
        hc | ⟨hc, hne⟩
      · rw [hc] at hx
        exact absurd hx ha
      · rw [hc]
        simpa using hne

/-- Helper: the invariant is preserved along any run suffix. -/
theorem foldl_preserves_InvAuth (env : Env) (ops : List Op) (g : GState)
    (h : InvAuth g) : InvAuth (ops.foldl (step env) g) := by
  induction ops generalizing g with
  | nil => exact h
  | cons op rest ih => exact ih _ (step_preserves_InvAuth env g op h)

/-- C10: in every state reachable from the initial session state via the
request, verify and logout interactions, an authenticated session carries a
nonempty email, and the logout transition (with its audit line written)
restores the three session fields to their initial values. -/
theorem C10_session_invariant (env : Env) (ops : List Op) (st : SessionState)
    (log : List AuditEntry) (now : Nat) :
    ((run env ops).st.authenticated = true → (run env ops).st.email ≠ "")
    ∧ (logoutStep env st log now true).1 = initSession := by
  constructor
  · exact foldl_preserves_InvAuth env ops initG (fun hx => Bool.noConfusion hx)
  · rfl

/-- Concrete interaction list: one successful request followed by echoing the
delivered token back, reaching an authenticated state. -/
def cOps : List Op :=
  [.request "a@b" "sec" 0 true true,
   .verify (.tok (generate_email_token cEnv "a@b" 0)) 5 true]

/-- C10 witness: on the concrete run reaching an authenticated state the
invariant instantiates to a nonempty session email. -/
theorem C10_session_invariant_witness : (run cEnv cOps).st.email ≠ "" :=
  (C10_session_invariant cEnv cOps initSession [] 0).1 (by decide)

end Pasc
